import Mathlib

/-!
# Verification of the Emoji-Stealer status updater

A shallow embedding of `src/structures/StatusUpdater.ts` (the `StatusUpdater`
class and the delivery-mode branch of `WebhookLogger._write`), with theorems
settling the specification claims about it.

JavaScript conventions used throughout the embedding:
* an `undefined`-able field is an `Option`;
* `a || b` on strings yields `b` exactly when `a` is empty or undefined;
* `if (x)` on an optional number is true exactly when `x` is defined and
  nonzero (JS truthiness);
* `Math.random()` is modelled as an arbitrary rational `r` with `0 ≤ r < 1`;
* `~~x` (double bitwise not) truncates toward zero; pool lengths are far
  below `2^31`, so no 32-bit wrap is modelled.
-/

set_option autoImplicit false

/-- Embedding of discord.js `ActivityOptions` as used by `StatusUpdater`:
the activity kind (`type`), display name, optional URL and optional shard id.
`Option` encodes a field that may be `undefined`. -/
structure ActivityOptions where
  type : Option String
  name : String
  url : Option String
  shardID : Option Nat
  deriving DecidableEq, Repr

/-- Shorthand for a template with only `type` and `name` set, as in the
source's literal template lists. -/
def mkTemplate (t : String) (n : String) : ActivityOptions :=
  ⟨some t, n, none, none⟩

/-- The built-in default status pool (`defaultStatuses` in
`StatusUpdater.ts`). -/
def defaultStatuses : List ActivityOptions :=
  [ mkTemplate "PLAYING" "with {users} users"
  , mkTemplate "LISTENING" "{users} users"
  , mkTemplate "WATCHING" "over {users} users"
  , mkTemplate "PLAYING" "in {guilds} servers"
  , mkTemplate "WATCHING" "{website}"
  , mkTemplate "PLAYING" "\x7bprefix\x7dhelp for help"
  , mkTemplate "WATCHING" "{guilds} servers"
  ]

/-- JS `a || b` for an optional string `a`: the default is taken when `a` is
`undefined` or the empty string (both falsy). -/
def jsOrOpt (a : Option String) (b : String) : String :=
  match a with
  | none => b
  | some s => if s = "" then b else s

/-- JS `a || b` for a plain string `a`: the default is taken exactly when `a`
is empty. -/
def jsOrStr (a : String) (b : String) : String :=
  if a = "" then b else a

/-- JS `~~q`: truncation toward zero of a rational. -/
def jsTrunc (q : ℚ) : ℤ :=
  if 0 ≤ q then ⌊q⌋ else -⌊-q⌋

/-- The index computed in `_chooseActivity`:
`~~(Math.random() * this.statuses.length)` with random draw `r` and pool
length `len`. -/
def chooseIndex (r : ℚ) (len : ℕ) : ℕ :=
  (jsTrunc (r * len)).toNat

/-- Embedding of `StatusUpdater._chooseActivity`, parameterised by the
variable parser (an external collaborator, `this.parser.parse`), the current
pool (`this.statuses`) and the random draw `r`. Mirrors
`{ ...info, type: info.type || 'PLAYING', name: this.parser.parse(info.name) || 'a game' }`. -/
def _chooseActivity (parse : String → String) (pool : List ActivityOptions)
    (r : ℚ) : ActivityOptions :=
  let info := pool.getD (chooseIndex r pool.length) (mkTemplate "" "")
  { info with
    type := some (jsOrOpt info.type "PLAYING")
    name := jsOrStr (parse info.name) "a game" }

/-- The chosen index stays in range: `0 ≤ r < 1` and `0 < len` give
`chooseIndex r len < len`. -/
theorem chooseIndex_lt (r : ℚ) (len : ℕ) (h0 : 0 ≤ r) (h1 : r < 1)
    (hlen : 0 < len) : chooseIndex r len < len := by
  have hnn : (0 : ℚ) ≤ r * len := by positivity
  have hfl : jsTrunc (r * len) = ⌊(r * (len : ℚ))⌋ := by
    unfold jsTrunc
    simp [hnn]
  have hlt : r * (len : ℚ) < (len : ℚ) := by
    have hpos : (0 : ℚ) < (len : ℚ) := by exact_mod_cast hlen
    calc r * (len : ℚ) < 1 * (len : ℚ) := by
          exact mul_lt_mul_of_pos_right h1 hpos
      _ = (len : ℚ) := one_mul _
  have hfloor : ⌊(r * (len : ℚ))⌋ < (len : ℤ) := by
    have : r * (len : ℚ) < ((len : ℤ) : ℚ) := by exact_mod_cast hlt
    exact Int.floor_lt.mpr (by exact_mod_cast this)
  unfold chooseIndex
  rw [hfl]
  omega

/-- C9: for every nonempty pool of length `L` and every random draw
`0 ≤ r < 1`, the index `~~(r × L)` computed in `_chooseActivity` satisfies
`0 ≤ index < L`, so indexing the pool yields a defined element. -/
theorem chooseActivity_index_safe (pool : List ActivityOptions) (r : ℚ)
    (h0 : 0 ≤ r) (h1 : r < 1) (hne : pool ≠ []) :
    chooseIndex r pool.length < pool.length ∧
      (pool.get? (chooseIndex r pool.length)).isSome := by
  have hlen : 0 < pool.length := List.length_pos.mpr hne
  have hlt := chooseIndex_lt r pool.length h0 h1 hlen
  exact ⟨hlt, by rw [List.get?_eq_get hlt]; rfl⟩

/-- Witness for C9 at a concrete pool and draw. -/
theorem chooseActivity_index_safe_witness :
    chooseIndex (1/2) defaultStatuses.length < defaultStatuses.length ∧
      (defaultStatuses.get? (chooseIndex (1/2) defaultStatuses.length)).isSome :=
  chooseActivity_index_safe defaultStatuses (1/2) (by norm_num) (by norm_num)
    (by decide)

/-- C2: `_chooseActivity` picks the template at `floor(r × length)`,
defaults the kind to `PLAYING` when unset, renders the name through the
parser with the `a game` fallback on an empty render, and the returned kind
is always a defined, non-empty string. -/
theorem chooseActivity_spec (parse : String → String)
    (pool : List ActivityOptions) (r : ℚ)
    (h0 : 0 ≤ r) (h1 : r < 1) (hne : pool ≠ []) :
    ∃ h : chooseIndex r pool.length < pool.length,
      let info := pool.get ⟨chooseIndex r pool.length, h⟩
      _chooseActivity parse pool r =
        { info with
          type := some (jsOrOpt info.type "PLAYING")
          name := jsOrStr (parse info.name) "a game" } ∧
      ∃ s, (_chooseActivity parse pool r).type = some s ∧ s ≠ "" := by
  have hlen : 0 < pool.length := List.length_pos.mpr hne
  have hlt := chooseIndex_lt r pool.length h0 h1 hlen
  refine ⟨hlt, ?_, ?_⟩
  · unfold _chooseActivity
    rw [List.getD_eq_get _ _ hlt]
  · refine ⟨jsOrOpt (pool.getD (chooseIndex r pool.length)
      (mkTemplate "" "")).type "PLAYING", rfl, ?_⟩
    unfold jsOrOpt
    cases hT : (pool.getD (chooseIndex r pool.length) (mkTemplate "" "")).type with
    | none => simp
    | some s =>
      by_cases hs : s = "" <;> simp [hs]

/-- Witness for C2 at a concrete parser, pool and draw. -/
theorem chooseActivity_spec_witness :
    ∃ h : chooseIndex (3/4) defaultStatuses.length < defaultStatuses.length,
      let info := defaultStatuses.get ⟨chooseIndex (3/4) defaultStatuses.length, h⟩
      _chooseActivity id defaultStatuses (3/4) =
        { info with
          type := some (jsOrOpt info.type "PLAYING")
          name := jsOrStr (id info.name) "a game" } ∧
      ∃ s, (_chooseActivity id defaultStatuses (3/4)).type = some s ∧ s ≠ "" :=
  chooseActivity_spec id defaultStatuses (3/4) (by norm_num) (by norm_num)
    (by decide)

/-! ## `updateStatus`

`updateStatus(activity?, shardId?)` refreshes the parser data, resolves the
activity (the explicit one if given, otherwise `_chooseActivity`), attaches
the shard id when it is truthy, and returns whatever
`this.client.user.setActivity` returns. -/

/-- JS truthiness of the optional `shardId` number: `if (shardId)` is taken
exactly when the value is defined and nonzero. -/
def jsTruthyNum (x : Option Nat) : Bool :=
  match x with
  | none => false
  | some n => n != 0

/-- The activity resolved by `updateStatus` before it is handed to
`setActivity`: `const $activity = activity || this._chooseActivity();
if (shardId) $activity.shardID = shardId`. -/
def resolvedActivity (parse : String → String) (pool : List ActivityOptions)
    (r : ℚ) (activity : Option ActivityOptions) (shardId : Option Nat) :
    ActivityOptions :=
  let a := match activity with
    | some a => a
    | none => _chooseActivity parse pool r
  if jsTruthyNum shardId then { a with shardID := shardId } else a

/-- Embedding of `updateStatus`: it delegates the resolved activity to the
host presence API (`setActivity`, an external collaborator returning either
an applied presence or a rejection) and returns that result unchanged. -/
def updateStatus {ε π : Type} (setActivity : ActivityOptions → Except ε π)
    (parse : String → String) (pool : List ActivityOptions) (r : ℚ)
    (activity : Option ActivityOptions) (shardId : Option Nat) : Except ε π :=
  setActivity (resolvedActivity parse pool r activity shardId)

/-- A concrete caller-supplied activity used in counterexamples and
witnesses. -/
def sampleActivity : ActivityOptions :=
  ⟨some "PLAYING", "hello", none, none⟩

/-- C5 counterexample: passing shard id `0` to `updateStatus` does NOT attach
it — `if (shardId)` is false for `0`, so the applied activity has `shardID`
unset even though a shard id was passed. -/
theorem updateStatus_shard_zero_cex :
    (resolvedActivity id defaultStatuses 0 (some sampleActivity)
      (some 0)).shardID = none ∧ (some 0 : Option Nat) ≠ none := by
  constructor
  · rfl
  · simp

/-- C5 (amended): a NON-ZERO shard id passed to `updateStatus` is attached as
the `shardID` field of the applied activity; a zero shard id is treated like
an omitted one, leaving the field exactly as it was on the resolved activity
(hence unset when that activity carries no shard id). -/
theorem updateStatus_shard_spec (parse : String → String)
    (pool : List ActivityOptions) (r : ℚ) (activity : Option ActivityOptions)
    (n : ℕ) (hn : n ≠ 0) :
    (resolvedActivity parse pool r activity (some n)).shardID = some n ∧
    (resolvedActivity parse pool r activity none).shardID =
      (resolvedActivity parse pool r activity (some 0)).shardID := by
  constructor
  · unfold resolvedActivity
    have : jsTruthyNum (some n) = true := by
      unfold jsTruthyNum
      simpa using hn
    simp [this]
  · rfl

/-- Witness for the amended C5 at concrete inputs. -/
theorem updateStatus_shard_spec_witness :
    (resolvedActivity id defaultStatuses 0 (some sampleActivity)
      (some 3)).shardID = some 3 ∧
    (resolvedActivity id defaultStatuses 0 (some sampleActivity)
      none).shardID =
      (resolvedActivity id defaultStatuses 0 (some sampleActivity)
        (some 0)).shardID :=
  updateStatus_shard_spec id defaultStatuses 0 (some sampleActivity) 3
    (by decide)

/-- C7: `updateStatus` returns exactly what the host presence API returns on
the resolved activity — a successful presence is returned unchanged, and a
rejection propagates unchanged, with no retry or transformation. -/
theorem updateStatus_propagates {ε π : Type}
    (setActivity : ActivityOptions → Except ε π) (parse : String → String)
    (pool : List ActivityOptions) (r : ℚ) (activity : Option ActivityOptions)
    (shardId : Option Nat) :
    (∀ p : π,
      setActivity (resolvedActivity parse pool r activity shardId) = .ok p →
      updateStatus setActivity parse pool r activity shardId = .ok p) ∧
    (∀ e : ε,
      setActivity (resolvedActivity parse pool r activity shardId) = .error e →
      updateStatus setActivity parse pool r activity shardId = .error e) := by
  exact ⟨fun p hp => hp, fun e he => he⟩

/-- A concrete host presence API for witnesses: applies the activity by
echoing its display name as the resulting presence. -/
def echoSetActivity (a : ActivityOptions) : Except String String :=
  .ok a.name

/-- A concrete rejecting host presence API for witnesses. -/
def failSetActivity (_ : ActivityOptions) : Except String String :=
  .error "Missing Access"

/-- Witness for C7: a concrete success is returned unchanged and a concrete
rejection propagates unchanged. -/
theorem updateStatus_propagates_witness :
    updateStatus echoSetActivity id defaultStatuses 0 (some sampleActivity)
      none = .ok "hello" ∧
    updateStatus failSetActivity id defaultStatuses 0 (some sampleActivity)
      none = .error "Missing Access" :=
  ⟨(updateStatus_propagates echoSetActivity id defaultStatuses 0
      (some sampleActivity) none).1 "hello" rfl,
   (updateStatus_propagates failSetActivity id defaultStatuses 0
      (some sampleActivity) none).2 "Missing Access" rfl⟩

/-! ## Heap-level view of `updateStatus` (aliasing)

`$activity.shardID = shardId` writes through the caller's reference: the
object the caller passed is mutated, not a copy, and that same reference is
forwarded to `setActivity`. We model the JS heap as a total map from object
references (naturals) to activity records, and `updateStatus` with an
explicit activity as a store transformer returning the new store together
with the reference it forwards to the host API. -/

/-- Store-level embedding of `updateStatus(activity, shardId)` for an
explicit caller-supplied activity reference `ref`: when `shardId` is truthy
the store is updated in place at `ref` (all other references untouched), and
`ref` itself is what gets forwarded to `setActivity`. -/
def updateStatusStore (store : ℕ → ActivityOptions) (ref : ℕ)
    (shardId : Option Nat) : (ℕ → ActivityOptions) × ℕ :=
  if jsTruthyNum shardId then
    (fun i => if i = ref then { store ref with shardID := shardId }
              else store i, ref)
  else (store, ref)

/-- C10: calling `updateStatus` with an explicit activity and a non-zero
shard id mutates the caller's object in place — the `shardID` field is
written at the very reference the caller passed, every other reference is
untouched — and that same reference is forwarded to the host presence API. -/
theorem updateStatus_mutates_in_place (store : ℕ → ActivityOptions)
    (ref : ℕ) (n : ℕ) (hn : n ≠ 0) :
    ((updateStatusStore store ref (some n)).1 ref).shardID = some n ∧
    (updateStatusStore store ref (some n)).2 = ref ∧
    ∀ i, i ≠ ref →
      (updateStatusStore store ref (some n)).1 i = store i := by
  have ht : jsTruthyNum (some n) = true := by
    unfold jsTruthyNum
    simpa using hn
  unfold updateStatusStore
  rw [ht]
  refine ⟨by simp, rfl, fun i hi => by simp [hi]⟩

/-- Witness for C10 at a concrete store, reference and shard id. -/
theorem updateStatus_mutates_in_place_witness :
    ((updateStatusStore (fun _ => sampleActivity) 5 (some 2)).1 5).shardID
      = some 2 ∧
    (updateStatusStore (fun _ => sampleActivity) 5 (some 2)).2 = 5 ∧
    ∀ i, i ≠ 5 →
      (updateStatusStore (fun _ => sampleActivity) 5 (some 2)).1 i =
        (fun _ => sampleActivity) i :=
  updateStatus_mutates_in_place (fun _ => sampleActivity) 5 2 (by decide)

/-! ## Construction, initialization and the `statuses` accessor

The constructor validates its `statuses` argument (`if (statuses) { ... }`,
a JS truthiness test), `_init` runs the one-time fetch attempt and sets the
readiness flag on success, and the `statuses` getter serves the default pool
until readiness. The `isUrl` validator lives in `src/util/Validators`, which
is not part of this repository snapshot, so constructions are parameterised
by it (see `isUrlModel` below for a spec-modelled concrete instance). -/

/-- A JavaScript value passed as the constructor's `statuses` argument. -/
inductive JSVal where
  | undef
  | null
  | str (s : String)
  | num (q : ℚ)
  | bool (b : Bool)
  | arr (a : List ActivityOptions)
  deriving DecidableEq, Repr

/-- JS truthiness of a `JSVal`: `undefined`, `null`, the empty string, `0`
and `false` are falsy; every other value (including any array object) is
truthy. -/
def jsTruthy (v : JSVal) : Bool :=
  match v with
  | .undef => false
  | .null => false
  | .str s => s != ""
  | .num q => q != 0
  | .bool b => b
  | .arr _ => true

/-- The fields of a `StatusUpdater` instance relevant to the claims:
`statusUrl` (`undefined` unless a URL string was accepted), `_statuses`
(`undefined` until assigned — the constructor assigns it for an inline
array, `_getStatuses` assigns it after a successful fetch) and the
readiness flag `isReady`. -/
structure UpdaterState where
  statusUrl : Option String
  _statuses : Option (List ActivityOptions)
  isReady : Bool
  deriving DecidableEq, Repr

/-- Embedding of the `StatusUpdater` constructor body up to (and excluding)
the `_init()` call, parameterised by the `isUrl` validator. `.error` is a
synchronously thrown `Error` with the source's message. -/
def mkStatusUpdater (isUrl : String → Bool) (statuses : JSVal) :
    Except String UpdaterState :=
  if jsTruthy statuses then
    match statuses with
    | .str s =>
      if !isUrl s then .error "Invalid statuses URL"
      else .ok ⟨some s, none, false⟩
    | .arr a => .ok ⟨none, some a, false⟩
    | _ => .error "Invalid status options."
  else .ok ⟨none, none, false⟩

/-- Outcome of the one network fetch `Axios.get(this.statusUrl)`: either a
decoded pool or a rejection. -/
inductive FetchResult where
  | ok (pool : List ActivityOptions)
  | err (msg : String)
  deriving DecidableEq, Repr

/-- Embedding of `_getStatuses`: with a `statusUrl` it performs the fetch,
stores the result in `_statuses` and returns it (a rejection propagates);
with no URL it returns `defaultStatuses` WITHOUT assigning `_statuses` —
exactly as the source's `else { return defaultStatuses }` branch does. -/
def _getStatuses (s : UpdaterState) (fetch : FetchResult) :
    Except String (UpdaterState × List ActivityOptions) :=
  match s.statusUrl with
  | some _ =>
    match fetch with
    | .ok pool => .ok ({ s with _statuses := some pool }, pool)
    | .err m => .error m
  | none => .ok (s, defaultStatuses)

/-- Embedding of `_init`: on a resolved `_getStatuses` the readiness flag is
set; on a rejection the state is untouched (the rethrown error escapes as an
unhandled rejection) and the flag stays `false`. -/
def _init (s : UpdaterState) (fetch : FetchResult) : UpdaterState :=
  match _getStatuses s fetch with
  | .ok (s2, _) => { s2 with isReady := true }
  | .error _ => s

/-- Embedding of the `statuses` getter: the default pool until ready, then
the `_statuses` field (which may still be `undefined`, hence the `Option`
result). -/
def statuses (s : UpdaterState) : Option (List ActivityOptions) :=
  if !s.isReady then some defaultStatuses else s._statuses

/-- Modelled from the spec: the `isUrl` validator imported from
`src/util/Validators` is not part of this repository snapshot. Per the spec
it accepts exactly syntactically valid URLs; modelled here as an
`http://` or `https://` scheme followed by a nonempty remainder. -/
def isUrlModel (s : String) : Bool :=
  (s.data.take 7 == "http://".data && s.data.length > 7) ||
    (s.data.take 8 == "https://".data && s.data.length > 8)

/-- C1 (the code at the failing input): constructing with no `statuses`
argument leaves both `statusUrl` and `_statuses` undefined; `_init` then
resolves (the no-URL branch of `_getStatuses` returns the defaults WITHOUT
assigning `_statuses`) and sets readiness, after which the `statuses`
accessor returns `undefined` — not the seven built-in templates. -/
theorem default_ctor_statuses_bug :
    (∀ isU : String → Bool,
      mkStatusUpdater isU .undef = .ok ⟨none, none, false⟩) ∧
    (∀ f, (_init ⟨none, none, false⟩ f).isReady = true) ∧
    (∀ f, statuses (_init ⟨none, none, false⟩ f) = none) ∧
    (∀ f, statuses (_init ⟨none, none, false⟩ f) ≠ some defaultStatuses) := by
  refine ⟨fun isU => rfl, fun f => rfl, fun f => rfl, fun f h => ?_⟩
  simp [statuses, _init, _getStatuses] at h

/-- C3: the `statuses` accessor serves the default pool whenever the updater
is not ready (whatever was requested at construction); once ready it serves
the custom inline array (for an array construction) or the fetched pool
(for a URL construction after a successful fetch). -/
theorem statuses_accessor_spec :
    (∀ s : UpdaterState, s.isReady = false →
      statuses s = some defaultStatuses) ∧
    (∀ (isU : String → Bool) (a : List ActivityOptions),
      mkStatusUpdater isU (.arr a) = .ok ⟨none, some a, false⟩ ∧
      statuses ⟨none, some a, false⟩ = some defaultStatuses ∧
      ∀ f, statuses (_init ⟨none, some a, false⟩ f) = some a) ∧
    (∀ (isU : String → Bool) (u : String) (pool : List ActivityOptions),
      u ≠ "" → isU u = true →
      mkStatusUpdater isU (.str u) = .ok ⟨some u, none, false⟩ ∧
      statuses (_init ⟨some u, none, false⟩ (.ok pool)) = some pool) := by
  refine ⟨fun s hs => ?_, fun isU a => ⟨rfl, rfl, fun f => rfl⟩,
    fun isU u pool hu hisU => ⟨?_, rfl⟩⟩
  · simp [statuses, hs]
  · simp [mkStatusUpdater, jsTruthy, hu, hisU]

/-- Witness for C3 at a concrete validator, array, URL and fetch result. -/
theorem statuses_accessor_spec_witness :
    statuses ⟨some "http://x.y", some [sampleActivity], false⟩ =
      some defaultStatuses ∧
    mkStatusUpdater isUrlModel (.arr [sampleActivity]) =
      .ok ⟨none, some [sampleActivity], false⟩ ∧
    (∀ f, statuses (_init ⟨none, some [sampleActivity], false⟩ f) =
      some [sampleActivity]) ∧
    mkStatusUpdater isUrlModel (.str "http://x.y") =
      .ok ⟨some "http://x.y", none, false⟩ ∧
    statuses (_init ⟨some "http://x.y", none, false⟩ (.ok [sampleActivity])) =
      some [sampleActivity] := by
  have h := statuses_accessor_spec
  have h3 := h.2.2 isUrlModel "http://x.y" [sampleActivity] (by decide)
    (by decide)
  exact ⟨h.1 _ rfl, (h.2.1 isUrlModel [sampleActivity]).1,
    (h.2.1 isUrlModel [sampleActivity]).2.2, h3.1, h3.2⟩

/-- C4 counterexample: the constructor guards validation with
`if (statuses)`, a JS truthiness test, so falsy arguments skip validation
entirely: the empty string is a string that is not a valid URL yet is
accepted (treated as absent), and `null` is neither an array, a string nor
`undefined` yet is accepted too. -/
theorem ctor_falsy_cex :
    mkStatusUpdater isUrlModel (.str "") = .ok ⟨none, none, false⟩ ∧
    isUrlModel "" = false ∧
    mkStatusUpdater isUrlModel .null = .ok ⟨none, none, false⟩ :=
  ⟨rfl, rfl, rfl⟩

/-- C4 (amended): the constructor rejects synchronously every TRUTHY string
argument that fails the URL validator and every TRUTHY argument that is
neither an array nor a string; falsy arguments (`undefined`, `null`,
`false`, `0` and the empty string) are treated as absent and do not throw;
valid inputs (a validator-accepted URL string, an array, or no argument) do
not throw. -/
theorem ctor_validation_spec (isU : String → Bool) :
    (∀ s, s ≠ "" → isU s = false →
      mkStatusUpdater isU (.str s) = .error "Invalid statuses URL") ∧
    (∀ s, s ≠ "" → isU s = true →
      mkStatusUpdater isU (.str s) = .ok ⟨some s, none, false⟩) ∧
    (∀ a, mkStatusUpdater isU (.arr a) = .ok ⟨none, some a, false⟩) ∧
    (mkStatusUpdater isU .undef = .ok ⟨none, none, false⟩) ∧
    (∀ q, q ≠ 0 →
      mkStatusUpdater isU (.num q) = .error "Invalid status options.") ∧
    (mkStatusUpdater isU (.bool true) = .error "Invalid status options.") ∧
    (∀ v, jsTruthy v = false →
      mkStatusUpdater isU v = .ok ⟨none, none, false⟩) := by
  refine ⟨fun s hs hbad => ?_, fun s hs hok => ?_, fun a => rfl, rfl,
    fun q hq => ?_, rfl, fun v hv => ?_⟩
  · simp [mkStatusUpdater, jsTruthy, hs, hbad]
  · simp [mkStatusUpdater, jsTruthy, hs, hok]
  · simp [mkStatusUpdater, jsTruthy, hq]
  · simp [mkStatusUpdater, hv]

/-- Witness for the amended C4 at concrete inputs. -/
theorem ctor_validation_spec_witness :
    mkStatusUpdater isUrlModel (.str "not a url") =
      .error "Invalid statuses URL" ∧
    mkStatusUpdater isUrlModel (.str "https://example.com/statuses.json") =
      .ok ⟨some "https://example.com/statuses.json", none, false⟩ ∧
    mkStatusUpdater isUrlModel (.num 5) = .error "Invalid status options." ∧
    mkStatusUpdater isUrlModel (.bool false) = .ok ⟨none, none, false⟩ := by
  have h := ctor_validation_spec isUrlModel
  exact ⟨h.1 "not a url" (by decide) (by decide),
    h.2.1 "https://example.com/statuses.json" (by decide) (by decide),
    h.2.2.2.2.1 5 (by norm_num),
    h.2.2.2.2.2.2 (.bool false) rfl⟩

/-! ## Lifetime of the readiness flag

The operations an instance performs after construction, as a step function:
`_init` runs once from the constructor; the `statuses` getter and
`updateStatus` read but never touch `statusUrl`, `_statuses` or `isReady`
(`updateStatus` mutates only the parser data and the activity object). -/

/-- An operation on a live `StatusUpdater` instance. -/
inductive UpdaterOp where
  | initOp (f : FetchResult)
  | readStatuses
  | updateOp (activity : Option ActivityOptions) (shardId : Option Nat)
  deriving DecidableEq, Repr

/-- Effect of one operation on the instance fields. -/
def runOp (s : UpdaterState) : UpdaterOp → UpdaterState
  | .initOp f => _init s f
  | .readStatuses => s
  | .updateOp _ _ => s

/-- Effect of a sequence of operations. -/
def runOps (s : UpdaterState) (ops : List UpdaterOp) : UpdaterState :=
  ops.foldl runOp s

/-- `_init` never lowers the readiness flag. -/
theorem init_monotone (s : UpdaterState) (f : FetchResult)
    (h : s.isReady = true) : (_init s f).isReady = true := by
  unfold _init
  cases hg : _getStatuses s f with
  | ok p => rfl
  | error m => exact h

/-- C6: the readiness flag starts `false` at construction, is never lowered
by any operation (so it flips `false → true` at most once), flips only when
the fetch attempt of `_init` resolves (a rejected fetch leaves the state
untouched), and after a failed fetch — with no retry, since `_init` is never
re-run — the instance stays not-ready and `statuses` serves the default pool
forever. -/
theorem readiness_lifecycle :
    (∀ (isU : String → Bool) (v : JSVal) (s0 : UpdaterState),
      mkStatusUpdater isU v = .ok s0 → s0.isReady = false) ∧
    (∀ (s : UpdaterState) (ops : List UpdaterOp),
      s.isReady = true → (runOps s ops).isReady = true) ∧
    (∀ (s : UpdaterState) (f : FetchResult) (m : String),
      _getStatuses s f = .error m → _init s f = s) ∧
    (∀ (s : UpdaterState) (ops : List UpdaterOp),
      (∀ f, UpdaterOp.initOp f ∉ ops) → runOps s ops = s) ∧
    (∀ (u m : String) (ops : List UpdaterOp),
      (∀ f, UpdaterOp.initOp f ∉ ops) →
      (runOps (_init ⟨some u, none, false⟩ (.err m)) ops).isReady = false ∧
      statuses (runOps (_init ⟨some u, none, false⟩ (.err m)) ops) =
        some defaultStatuses) := by
  have hmk : ∀ (isU : String → Bool) (v : JSVal) (s0 : UpdaterState),
      mkStatusUpdater isU v = .ok s0 → s0.isReady = false := by
    intro isU v s0 h
    unfold mkStatusUpdater at h
    split at h
    · split at h
      · split at h
        · exact absurd h (by simp)
        · cases h
          rfl
      · cases h
        rfl
      · exact absurd h (by simp)
    · cases h
      rfl
  have hmono : ∀ (s : UpdaterState) (ops : List UpdaterOp),
      s.isReady = true → (runOps s ops).isReady = true := by
    intro s ops
    induction ops generalizing s with
    | nil => exact fun h => h
    | cons op rest ih =>
      intro h
      cases op with
      | initOp f => exact ih _ (init_monotone s f h)
      | readStatuses => exact ih _ h
      | updateOp a sh => exact ih _ h
  have herr : ∀ (s : UpdaterState) (f : FetchResult) (m : String),
      _getStatuses s f = .error m → _init s f = s := by
    intro s f m h
    unfold _init
    rw [h]
  have hfix : ∀ (s : UpdaterState) (ops : List UpdaterOp),
      (∀ f, UpdaterOp.initOp f ∉ ops) → runOps s ops = s := by
    intro s ops
    induction ops generalizing s with
    | nil => exact fun _ => rfl
    | cons op rest ih =>
      intro h
      cases op with
      | initOp f => exact absurd (List.mem_cons_self _ _) (h f)
      | readStatuses =>
        exact ih _ (fun f hf => h f (List.mem_cons_of_mem _ hf))
      | updateOp a sh =>
        exact ih _ (fun f hf => h f (List.mem_cons_of_mem _ hf))
  refine ⟨hmk, hmono, herr, hfix, fun u m ops hops => ?_⟩
  have h1 : _init ⟨some u, none, false⟩ (.err m) = ⟨some u, none, false⟩ :=
    herr _ _ m rfl
  rw [h1, hfix _ _ hops]
  exact ⟨rfl, rfl⟩

/-- Witness for C6 at concrete constructions, fetch failures and operation
sequences. -/
theorem readiness_lifecycle_witness :
    (⟨none, some [sampleActivity], false⟩ : UpdaterState).isReady = false ∧
    (runOps ⟨none, none, true⟩ [.readStatuses]).isReady = true ∧
    _init ⟨some "http://x.y", none, false⟩ (.err "timeout") =
      ⟨some "http://x.y", none, false⟩ ∧
    runOps ⟨some "http://x.y", none, false⟩ [.readStatuses] =
      ⟨some "http://x.y", none, false⟩ ∧
    ((runOps (_init ⟨some "http://x.y", none, false⟩ (.err "timeout"))
        [.readStatuses, .updateOp none none]).isReady = false ∧
      statuses (runOps (_init ⟨some "http://x.y", none, false⟩
        (.err "timeout")) [.readStatuses, .updateOp none none]) =
        some defaultStatuses) := by
  have h := readiness_lifecycle
  refine ⟨h.1 isUrlModel (.arr [sampleActivity]) _ rfl,
    h.2.1 ⟨none, none, true⟩ [.readStatuses] rfl,
    h.2.2.1 ⟨some "http://x.y", none, false⟩ (.err "timeout") "timeout" rfl,
    h.2.2.2.1 ⟨some "http://x.y", none, false⟩ [.readStatuses] ?_,
    h.2.2.2.2 "http://x.y" "timeout" [.readStatuses, .updateOp none none] ?_⟩
  · intro f hf
    simp at hf
  · intro f hf
    simp at hf

/-! ## `WebhookLogger._write` delivery mode

After `super._write` and the level gate, `_write` prepares `cleaned` and
builds the outgoing message: up to 2048 characters it becomes the embed
description; above that the description is a fallback notice and the full
text goes out as a `file.txt` attachment instead. -/

/-- The part of the outgoing webhook message the size branch determines:
the embed description and the optional file-attachment content. -/
structure DeliveryChoice where
  description : String
  files : Option String
  deriving DecidableEq, Repr

/-- Embedding of the delivery-mode branch of `WebhookLogger._write`:
`if (cleaned.length <= 2048) embed.setDescription(cleaned) else { fallback
description; attach cleaned as file.txt }`. -/
def writeDelivery (cleaned : String) : DeliveryChoice :=
  if cleaned.length ≤ 2048 then ⟨cleaned, none⟩
  else ⟨"Data is too long, falling back to file.", some cleaned⟩

/-- C8: a payload of at most 2048 characters is delivered inline as the
embed description with no attachment; a longer payload gets the fallback
description and the full text as a file attachment; and which of the two
delivery modes is taken depends only on the payload length. -/
theorem writeDelivery_spec :
    (∀ s : String, s.length ≤ 2048 → writeDelivery s = ⟨s, none⟩) ∧
    (∀ s : String, 2048 < s.length →
      writeDelivery s =
        ⟨"Data is too long, falling back to file.", some s⟩) ∧
    (∀ s t : String, s.length = t.length →
      (writeDelivery s).files.isSome = (writeDelivery t).files.isSome) := by
  refine ⟨fun s hs => ?_, fun s hs => ?_, fun s t hst => ?_⟩
  · simp [writeDelivery, hs]
  · simp [writeDelivery, Nat.not_le.mpr hs]
  · by_cases h : s.length ≤ 2048
    · simp [writeDelivery, h, hst ▸ h]
    · simp [writeDelivery, h, hst ▸ h]

/-- A concrete 2049-character payload for the C8 witness. -/
def longPayload : String :=
  String.mk (List.replicate 2049 (Char.ofNat 97))

/-- Witness for C8 at a short and a long concrete payload. -/
theorem writeDelivery_spec_witness :
    writeDelivery "boot ok" = ⟨"boot ok", none⟩ ∧
    writeDelivery longPayload =
      ⟨"Data is too long, falling back to file.", some longPayload⟩ ∧
    (writeDelivery "boot ok").files.isSome =
      (writeDelivery "ready .").files.isSome := by
  have h := writeDelivery_spec
  refine ⟨h.1 "boot ok" (by decide), h.2.1 longPayload ?_,
    h.2.2 "boot ok" "ready ." (by decide)⟩
  have h1 : longPayload.length = (List.replicate 2049 (Char.ofNat 97)).length :=
    rfl
  rw [h1, List.length_replicate]
  omega
